import Mathlib

/-!
Shallow embedding of `opengen/tcp/optimizer_tcp_manager.py`
(class `OptimizerTcpManager`): connection-details resolution,
request encoding, the per-transaction socket read loop, the bounded
connection-retry policy, and the `start`/`ping`/`call`/`kill` façade.
External collaborators (the yaml loader, `json.loads`, the socket and
the `retry` decorator's callee) are passed in as explicit parameters;
the surrounding control flow is translated from the source.
-/

namespace OptimizerTcp

/-- Python exceptions raised (or propagated) by the manager.  The source
raises bare `Exception(msg)` in three places; subscripting a dict with a
missing key raises `KeyError(key)`; `json.loads` on malformed input raises
`json.JSONDecodeError`; an unreachable server makes `socket.connect` raise
a `ConnectionError`. -/
inductive PyErr where
  | exception (msg : String)
  | keyError (key : String)
  | jsonDecodeError
  | connectionError
  deriving DecidableEq, Repr

/-- The `tcp` section of the optimizer details dict: `{"ip": ..., "port": ...}`. -/
structure TcpInfo where
  ip : String
  port : Nat
  deriving DecidableEq, Repr

/-- The `build` section of the details dict loaded from `optimizer.yml`. -/
structure BuildInfo where
  build_mode : String
  opengen_version : String
  deriving DecidableEq, Repr

/-- The `meta` section of the details dict loaded from `optimizer.yml`. -/
structure MetaInfo where
  optimizer_name : String
  deriving DecidableEq, Repr

/-- The `__optimizer_details_from_yml` dict.  A dict built in remote mode,
`{"tcp": {"ip": ip, "port": port}}`, has no `build` and no `meta` key, which
is modelled by `none`; subscripting a missing key is a `KeyError`. -/
structure OptimizerDetails where
  tcp : TcpInfo
  build : Option BuildInfo
  meta : Option MetaInfo
  deriving DecidableEq, Repr

/-- The state held by an `OptimizerTcpManager` instance after `__init__`. -/
structure Client where
  optimizer_path : Option String
  details : OptimizerDetails
  deriving DecidableEq, Repr

/-- The version-skew check at the end of `__init__` (lines 41-45):
`opengen_version = self.__optimizer_details_from_yml['build']['opengen_version']`
raises `KeyError('build')` when the details dict has no `build` key;
otherwise a version mismatch only logs two warnings (returned here as a
list of the logged strings) and never raises. -/
def versionCheck (details : OptimizerDetails) (currentVersion : String) :
    Except PyErr (List String) :=
  match details.build with
  | none => .error (.keyError "build")
  | some b =>
    if currentVersion ≠ b.opengen_version then
      .ok ["the target optimizer was build with a different version of opengen ("
             ++ b.opengen_version ++ ")",
           "you are running opengen version " ++ currentVersion]
    else
      .ok []

/-- `OptimizerTcpManager.__init__(optimizer_path, ip, port)`.
`load` stands for `__load_tcp_details` (reading `optimizer.yml`), whose
outcome is supplied by the environment; `currentVersion` stands for
`pkg_resources.require("opengen")[0].version`.  On success the result is
the constructed instance together with the warnings logged by the
version-skew check. -/
def initClient (load : Except PyErr OptimizerDetails) (optimizer_path : Option String)
    (ip : Option String) (port : Option Nat) (currentVersion : String) :
    Except PyErr (Client × List String) :=
  let detailsE : Except PyErr OptimizerDetails :=
    match optimizer_path with
    | some _ => load
    | none =>
      match ip, port with
      | some i, some pt => .ok ⟨⟨i, pt⟩, none, none⟩
      | _, _ => .error (.exception "Illegal arguments")
  match detailsE with
  | .error e => .error e
  | .ok details =>
    match versionCheck details currentVersion with
    | .error e => .error e
    | .ok warnings => .ok (⟨optimizer_path, details⟩, warnings)

/-- A details dict as loaded from a well-formed `optimizer.yml`. -/
def sampleDetails : OptimizerDetails :=
  ⟨⟨"127.0.0.1", 8080⟩, some ⟨"release", "0.6.0"⟩, some ⟨"foo"⟩⟩

/-- Python float values as rendered by `str` in the `call` encoder: a
finite float carries its decimal rendering; CPython renders the
non-finite values as the tokens `inf`, `-inf` and `nan`. -/
inductive PyFloat where
  | finite (repr : String)
  | inf
  | negInf
  | nan
  deriving DecidableEq, Repr

/-- CPython's `str()` applied to a float. -/
def pyStr : PyFloat → String
  | .finite s => s
  | .inf => "inf"
  | .negInf => "-inf"
  | .nan => "nan"

/-- Python's `','.join`. -/
def commaJoin : List String → String
  | [] => ""
  | [x] => x
  | x :: y :: ys => x ++ "," ++ commaJoin (y :: ys)

/-- The `run_message` string built by `call` (lines 163-180): the literal
header, the comma-joined parameter renderings, then each optional segment
appended in sequence only when the corresponding argument is not `None`. -/
def runMessage (p : List PyFloat) (initial_guess : Option (List PyFloat))
    (initial_y : Option (List PyFloat)) (initial_penalty : Option PyFloat) : String :=
  let m1 := "\x7b\"Run\" : \x7b\"parameter\": [" ++ commaJoin (p.map pyStr) ++ "]"
  let m2 := match initial_guess with
    | none => m1
    | some g => m1 ++ ", \"initial_guess\": [" ++ commaJoin (g.map pyStr) ++ "]"
  let m3 := match initial_y with
    | none => m2
    | some y => m2 ++ ", \"initial_lagrange_multipliers\": [" ++ commaJoin (y.map pyStr) ++ "]"
  let m4 := match initial_penalty with
    | none => m3
    | some c => m3 ++ ", \"initial_penalty\": " ++ pyStr c
  m4 ++ "\x7d\x7d"

/-- The three request kinds of the wire protocol. -/
inductive Request where
  | ping
  | kill
  | run (p : List PyFloat) (initial_guess : Option (List PyFloat))
        (initial_y : Option (List PyFloat)) (initial_penalty : Option PyFloat)

/-- The request text each public operation hands to `__send_receive_data`:
`ping` sends the literal in line 99, `kill` the literal in line 134, and
`call` the `run_message` built in lines 163-180. -/
def encodeRequest : Request → String
  | .ping => "\x7b\"Ping\":1\x7d"
  | .kill => "\x7b\"Kill\":1\x7d"
  | .run p ig iy pen => runMessage p ig iy pen

/-- An optional array segment of the run document, written from the
spec's words (§4.4/§6): present exactly when the caller supplied the
field, rendered as `, "<key>": [<comma-joined floats>]`. -/
def optArraySeg (key : String) : Option (List PyFloat) → String
  | none => ""
  | some xs => ", \"" ++ key ++ "\": [" ++ commaJoin (xs.map pyStr) ++ "]"

/-- The optional penalty segment of the run document, from the spec's
words: `, "initial_penalty": <float>` exactly when supplied. -/
def optPenaltySeg : Option PyFloat → String
  | none => ""
  | some c => ", \"initial_penalty\": " ++ pyStr c

/-- The run document assembled as the spec words it (§4.4): required
`parameter` array first, then the optional segments appended in the fixed
order guess, multipliers, penalty, each present only when supplied. -/
def runMessageSpec (p : List PyFloat) (ig : Option (List PyFloat))
    (iy : Option (List PyFloat)) (pen : Option PyFloat) : String :=
  "\x7b\"Run\" : \x7b\"parameter\": [" ++ commaJoin (p.map pyStr) ++ "]"
    ++ optArraySeg "initial_guess" ig
    ++ optArraySeg "initial_lagrange_multipliers" iy
    ++ optPenaltySeg pen
    ++ "\x7d\x7d"

/-- A parsed JSON document, the value domain of `json.loads`. -/
inductive Json where
  | null
  | boolean (b : Bool)
  | num (s : String)
  | str (s : String)
  | arr (xs : List Json)
  | obj (kvs : List (String × Json))

/-- The wrapper built by `call` around the decoded reply
(`SolverResponse(json.loads(data))`). -/
structure SolverResponse where
  json : Json

/-- The round cap of the read loop in `__send_receive_data` (line 83):
`math.ceil(max_data_size / buffer_size)`. -/
def maxReadRounds (max_data_size buffer_size : Nat) : Nat :=
  (max_data_size + buffer_size - 1) / buffer_size

/-- The chunks consumed by the read loop of `__send_receive_data`
(lines 85-89), one entry per `recv` call performed.  `recv i` is the
value returned by the i-th `conn_socket.recv(buffer_size)`; Python's
`recv` returns `bytes` (so `some chunk`, with `some []` for `b''` at
end-of-stream) and never the `None` the loop's break tests for, but the
loop as written breaks only on `None`, modelled here by the `none`
case. -/
def recvChunksAux (recv : Nat → Option (List Nat)) : Nat → Nat → List (Option (List Nat))
  | 0, _ => []
  | Nat.succ n, i =>
    match recv i with
    | none => [none]
    | some c => some c :: recvChunksAux recv n (i + 1)

/-- All `recv` results consumed by one run of the read loop. -/
def recvChunks (recv : Nat → Option (List Nat)) (buffer_size max_data_size : Nat) :
    List (Option (List Nat)) :=
  recvChunksAux recv (maxReadRounds max_data_size buffer_size) 0

/-- The number of `recv` calls one run of the read loop performs. -/
def recvLoopRounds (recv : Nat → Option (List Nat)) (buffer_size max_data_size : Nat) : Nat :=
  (recvChunks recv buffer_size max_data_size).length

/-- The `data` accumulated by the read loop (the bytes later decoded and
returned by `__send_receive_data`). -/
def recvLoopData (recv : Nat → Option (List Nat)) (buffer_size max_data_size : Nat) :
    List Nat :=
  ((recvChunks recv buffer_size max_data_size).filterMap id).flatten

/-- One socket-API event of a transaction, tagged with the socket it
touches. -/
inductive SockEvent where
  | openSock (sid : Nat)
  | sendAll (sid : Nat) (payload : String)
  | shutdownWr (sid : Nat)
  | recvEvt (sid : Nat) (result : Option (List Nat))
  | closeSock (sid : Nat)
  deriving DecidableEq, Repr

/-- The socket an event touches. -/
def SockEvent.sockId : SockEvent → Nat
  | .openSock s => s
  | .sendAll s _ => s
  | .shutdownWr s => s
  | .recvEvt s _ => s
  | .closeSock s => s

/-- The socket-API trace of one `__send_receive_data` call (lines 77-92):
a fresh socket `sid` is opened (via `__obtain_socket_connection`), the
whole payload is written with `sendall`, the write side is shut down,
the read loop runs, and the socket is closed before the data is
returned. -/
def sendReceiveTrace (sid : Nat) (payload : String) (recv : Nat → Option (List Nat))
    (buffer_size max_data_size : Nat) : List SockEvent :=
  [SockEvent.openSock sid, SockEvent.sendAll sid payload, SockEvent.shutdownWr sid]
    ++ (recvChunks recv buffer_size max_data_size).map (SockEvent.recvEvt sid)
    ++ [SockEvent.closeSock sid]

/-- The trace of one public transaction: `ping`, `kill` and `call` all
route their encoded request through `__send_receive_data` on a socket of
their own. -/
def transactionTrace (sid : Nat) (r : Request) (recv : Nat → Option (List Nat))
    (buffer_size max_data_size : Nat) : List SockEvent :=
  sendReceiveTrace sid (encodeRequest r) recv buffer_size max_data_size

/-- `ping` (lines 94-101): sends `{"Ping":1}` through a transaction and
decodes the reply with `json.loads`.  `loads` stands for `json.loads`
(returning `none` when it raises `JSONDecodeError`); `transact` maps the
sent text to the text received back.  The result pairs the request text
handed to `__send_receive_data` with the outcome. -/
def ping (loads : String → Option Json) (transact : String → String) :
    String × Except PyErr Json :=
  (encodeRequest .ping,
    match loads (transact (encodeRequest .ping)) with
    | none => .error .jsonDecodeError
    | some j => .ok j)

/-- `call` (lines 137-182): builds `run_message` from the parameters and
the optional warm-start arguments — with no validation of any kind —
performs one transaction and wraps the decoded reply in a
`SolverResponse`.  The result pairs the request text handed to
`__send_receive_data` with the outcome. -/
def call (loads : String → Option Json) (transact : String → String)
    (p : List PyFloat) (initial_guess : Option (List PyFloat))
    (initial_y : Option (List PyFloat)) (initial_penalty : Option PyFloat) :
    String × Except PyErr SolverResponse :=
  let msg := runMessage p initial_guess initial_y initial_penalty
  (msg,
    match loads (transact msg) with
    | none => .error .jsonDecodeError
    | some j => .ok ⟨j⟩)

/-- A connected TCP socket (opaque handle). -/
structure Socket where
  id : Nat
  deriving DecidableEq, Repr

/-- The loop of the `retry` decorator (`retry(tries, delay)` with its
defaults `backoff=1`, `jitter=0`): call `f`; on success return; on
failure decrement the budget, re-raise when it is exhausted, otherwise
sleep `delay` and continue with `delay * backoff + jitter`.  Arguments:
remaining tries, current delay, index of the next attempt, sleeps so
far.  Returns the outcome (`none` only for a zero budget, which the
decorator never uses), the number of attempts made and the list of
sleeps performed. -/
def retryAux {E A : Type} (f : Nat → Except E A) (backoff jitter : Nat) :
    Nat → Nat → Nat → List Nat → Option (Except E A) × Nat × List Nat
  | 0, _, i, sleeps => (none, i, sleeps)
  | 1, _, i, sleeps =>
    match f i with
    | .ok a => (some (.ok a), i + 1, sleeps)
    | .error e => (some (.error e), i + 1, sleeps)
  | Nat.succ (Nat.succ rem), d, i, sleeps =>
    match f i with
    | .ok a => (some (.ok a), i + 1, sleeps)
    | .error _ => retryAux f backoff jitter (Nat.succ rem) (d * backoff + jitter) (i + 1) (sleeps ++ [d])

/-- `@retry(tries=10, delay=1)` applied to `__obtain_socket_connection`
(lines 68-75): `connect i` is the i-th attempt to create and connect a
socket (raising `ConnectionError` while the server is unreachable). -/
def obtainSocketConnection (connect : Nat → Except PyErr Socket) :
    Option (Except PyErr Socket) × Nat × List Nat :=
  retryAux connect 1 0 10 1 0 []

/-- The observable steps of `start`. -/
inductive StartAction where
  | checkServer
  | spawnThread
  | sleepSettle (secs : Nat)
  | pingServer
  deriving DecidableEq, Repr

/-- `start` (lines 110-129): raises when the instance has no optimizer
path; then `__check_if_server_is_running` probes the target port
(`portAccepting` is that probe's result) and a positive probe raises
before any thread is spawned; otherwise the server thread is spawned,
`start` sleeps 2 seconds and pings.  Returns the actions performed and
the exception raised, if any. -/
def startTrace (c : Client) (portAccepting : Bool) : List StartAction × Option PyErr :=
  match c.optimizer_path with
  | none => ([], some (.exception "No optimizer path provided - cannot start a remote server"))
  | some _ =>
    if portAccepting then
      ([StartAction.checkServer],
        some (.exception ("Port " ++ toString c.details.tcp.port ++ " not available")))
    else
      ([StartAction.checkServer, StartAction.spawnThread,
        StartAction.sleepSettle 2, StartAction.pingServer], none)

/-! ## Helper lemmas -/

theorem commaJoin_cons (x : String) (y : String) (ys : List String) :
    commaJoin (x :: y :: ys) = x ++ "," ++ commaJoin (y :: ys) := rfl

theorem commaJoin_decomp (s : String) :
    ∀ l₁ l₂ : List String, ∃ a b, commaJoin (l₁ ++ s :: l₂) = a ++ s ++ b := by
  intro l₁
  induction l₁ with
  | nil =>
    intro l₂
    cases l₂ with
    | nil => exact ⟨"", "", by simp [commaJoin]⟩
    | cons y ys =>
      refine ⟨"", "," ++ commaJoin (y :: ys), ?_⟩
      rw [List.nil_append, commaJoin_cons]
      simp [String.append_assoc]
  | cons x xs ih =>
    intro l₂
    obtain ⟨a, b, hab⟩ := ih l₂
    refine ⟨x ++ "," ++ a, b, ?_⟩
    cases xs with
    | nil =>
      rw [List.cons_append, List.nil_append, commaJoin_cons]
      rw [List.nil_append] at hab
      rw [hab]
      simp [String.append_assoc]
    | cons z zs =>
      rw [List.cons_append, List.cons_append, commaJoin_cons]
      rw [List.cons_append] at hab
      rw [hab]
      simp [String.append_assoc]

/-- The sequential `run_message` builder of `call` produces exactly the
document the spec describes: required parameter array first, optional
segments appended in the fixed order guess, multipliers, penalty, each
present only when supplied. -/
theorem runMessage_eq_spec (p : List PyFloat) (ig iy : Option (List PyFloat))
    (pen : Option PyFloat) :
    runMessage p ig iy pen = runMessageSpec p ig iy pen := by
  cases ig <;> cases iy <;> cases pen <;>
    (simp only [runMessage, runMessageSpec, optArraySeg, optPenaltySeg,
      String.append_assoc, String.append_empty, String.empty_append]
     try rfl)

/-- The rendering of any parameter element appears verbatim in the run
document. -/
theorem runMessage_token (x : PyFloat) (p₁ p₂ : List PyFloat)
    (ig iy : Option (List PyFloat)) (pen : Option PyFloat) :
    ∃ l r, runMessage (p₁ ++ x :: p₂) ig iy pen = l ++ pyStr x ++ r := by
  obtain ⟨a, b, hab⟩ := commaJoin_decomp (pyStr x) (p₁.map pyStr) (p₂.map pyStr)
  refine ⟨"\x7b\"Run\" : \x7b\"parameter\": [" ++ a,
    b ++ ("]" ++ (optArraySeg "initial_guess" ig
      ++ (optArraySeg "initial_lagrange_multipliers" iy
        ++ (optPenaltySeg pen ++ "\x7d\x7d")))), ?_⟩
  rw [runMessage_eq_spec]
  unfold runMessageSpec
  rw [List.map_append, List.map_cons, hab]
  simp [String.append_assoc]

/-- The rendering of any `initial_guess` element appears verbatim in the
run document. -/
theorem runMessage_token_guess (x : PyFloat) (p g₁ g₂ : List PyFloat)
    (iy : Option (List PyFloat)) (pen : Option PyFloat) :
    ∃ l r, runMessage p (some (g₁ ++ x :: g₂)) iy pen = l ++ pyStr x ++ r := by
  obtain ⟨a, b, hab⟩ := commaJoin_decomp (pyStr x) (g₁.map pyStr) (g₂.map pyStr)
  refine ⟨"\x7b\"Run\" : \x7b\"parameter\": [" ++ (commaJoin (p.map pyStr)
      ++ ("]" ++ (", \"initial_guess\": [" ++ a))),
    b ++ ("]" ++ (optArraySeg "initial_lagrange_multipliers" iy
      ++ (optPenaltySeg pen ++ "\x7d\x7d"))), ?_⟩
  rw [runMessage_eq_spec]
  simp only [runMessageSpec, optArraySeg]
  rw [List.map_append, List.map_cons, hab]
  simp [String.append_assoc]

/-- The rendering of any `initial_y` (Lagrange-multiplier) element
appears verbatim in the run document. -/
theorem runMessage_token_multipliers (x : PyFloat) (p : List PyFloat)
    (ig : Option (List PyFloat)) (y₁ y₂ : List PyFloat) (pen : Option PyFloat) :
    ∃ l r, runMessage p ig (some (y₁ ++ x :: y₂)) pen = l ++ pyStr x ++ r := by
  obtain ⟨a, b, hab⟩ := commaJoin_decomp (pyStr x) (y₁.map pyStr) (y₂.map pyStr)
  refine ⟨"\x7b\"Run\" : \x7b\"parameter\": [" ++ (commaJoin (p.map pyStr)
      ++ ("]" ++ (optArraySeg "initial_guess" ig
        ++ (", \"initial_lagrange_multipliers\": [" ++ a)))),
    b ++ ("]" ++ (optPenaltySeg pen ++ "\x7d\x7d")), ?_⟩
  rw [runMessage_eq_spec]
  simp only [runMessageSpec]
  rw [show optArraySeg "initial_lagrange_multipliers" (some (y₁ ++ x :: y₂))
    = ", \"initial_lagrange_multipliers\": ["
        ++ commaJoin ((y₁ ++ x :: y₂).map pyStr) ++ "]" from rfl]
  rw [List.map_append, List.map_cons, hab]
  simp [String.append_assoc]

theorem recvChunksAux_length_le (recv : Nat → Option (List Nat)) :
    ∀ n i, (recvChunksAux recv n i).length ≤ n := by
  intro n
  induction n with
  | zero => intro i; simp [recvChunksAux]
  | succ m ih =>
    intro i
    simp only [recvChunksAux]
    cases recv i with
    | none => simp
    | some c => simpa using ih (i + 1)

/-- As long as `recv` returns bytes (which `socket.recv` always does),
the read loop performs every one of its `n` budgeted rounds: the
`is None` break condition never holds. -/
theorem recvChunksAux_length_of_isSome (recv : Nat → Option (List Nat))
    (h : ∀ i, (recv i).isSome) :
    ∀ n i, (recvChunksAux recv n i).length = n := by
  intro n
  induction n with
  | zero => intro i; rfl
  | succ m ih =>
    intro i
    have hs := h i
    simp only [recvChunksAux]
    cases hrecv : recv i with
    | none => rw [hrecv] at hs; simp at hs
    | some c => simpa using ih (i + 1)

theorem recvChunksAux_data_nil (recv : Nat → Option (List Nat))
    (h : ∀ i, recv i = some []) :
    ∀ n i, ((recvChunksAux recv n i).filterMap id).flatten = [] := by
  intro n
  induction n with
  | zero => intro i; rfl
  | succ m ih =>
    intro i
    simp only [recvChunksAux, h i, List.filterMap_cons, id]
    simpa using ih (i + 1)

/-- The `retry` loop with `backoff=1`, `jitter=0` against an
always-failing callee: all `n + 1` budgeted attempts are made, every
inter-attempt sleep equals the configured delay, and the final error is
re-raised. -/
theorem retryAux_all_error {E A : Type} (f : Nat → Except E A) (e : E)
    (h : ∀ j, f j = .error e) :
    ∀ n d i sleeps, retryAux f 1 0 (n + 1) d i sleeps
      = (some (.error e), i + (n + 1), sleeps ++ List.replicate n d) := by
  intro n
  induction n with
  | zero => intro d i sleeps; simp [retryAux, h i]
  | succ m ih =>
    intro d i sleeps
    show retryAux f 1 0 (m + 2) d i sleeps = _
    rw [retryAux, h i]
    simp only []
    rw [ih (d * 1 + 0) (i + 1) (sleeps ++ [d])]
    simp only [Nat.mul_one, Nat.add_zero, Prod.mk.injEq, List.append_assoc,
      List.singleton_append, List.replicate_succ, true_and]
    exact ⟨by omega, trivial⟩

theorem transactionTrace_sid (sid : Nat) (r : Request) (recv : Nat → Option (List Nat))
    (bs mds : Nat) :
    ∀ e ∈ transactionTrace sid r recv bs mds, e.sockId = sid := by
  intro e he
  simp only [transactionTrace, sendReceiveTrace, List.mem_append, List.mem_cons,
    List.mem_map, List.mem_singleton, List.not_mem_nil, or_false] at he
  rcases he with ((h | h | h) | ⟨c, _, h⟩) | h <;> subst h <;> rfl

/-! ## Claim theorems -/

/-- Claim C1 (code bug): constructing the client with an explicit host
and port does NOT succeed.  The remote branch of `__init__` builds a
details dict holding only the `tcp` key, after which the version-skew
check unconditionally subscripts `['build']['opengen_version']` and
raises `KeyError('build')` — the instance is never produced, regardless
of the installed opengen version.  The claim (and the spec) says this
construction succeeds with the version check being advisory only. -/
theorem C1_remote_construction_raises_keyError (load : Except PyErr OptimizerDetails)
    (i : String) (pt : Nat) (v : String) :
    initClient load none (some i) (some pt) v = .error (.keyError "build") := rfl

/-- Claim C2 (code bug): the read loop of `__send_receive_data` does not
stop when the peer closes the connection.  Its break condition tests
`data_chunk is None`, but `socket.recv` signals end-of-stream with `b''`
and never returns `None`, so against a peer that closed before sending
anything (`recv` yields `some []` in every round) the loop still
performs all `ceil(max_data_size / buffer_size) = 2048` recv rounds at
the default sizes (first two conjuncts).  Only the round-cap half of the
claim holds: the loop never exceeds the cap (third conjunct). -/
theorem C2_read_loop_runs_full_cap_after_peer_close :
    recvLoopRounds (fun _ => some []) 512 1048576 = 2048 ∧
    recvLoopData (fun _ => some []) 512 1048576 = [] ∧
    (∀ recv bs mds, recvLoopRounds recv bs mds ≤ maxReadRounds mds bs) := by
  refine ⟨?_, ?_, ?_⟩
  · have h := recvChunksAux_length_of_isSome (fun _ => some []) (fun _ => rfl)
      (maxReadRounds 1048576 512) 0
    simpa [recvLoopRounds, recvChunks, maxReadRounds] using h
  · exact recvChunksAux_data_nil (fun _ => some []) (fun _ => rfl) _ 0
  · intro recv bs mds
    exact recvChunksAux_length_le recv (maxReadRounds mds bs) 0

/-- Claim C3 (confirmed): `ping` sends exactly `{"Ping":1}`, `kill`
sends exactly `{"Kill":1}`, and `call` sends a Run document whose
required comma-joined parameter array is followed by the optional
`initial_guess`, `initial_lagrange_multipliers` and `initial_penalty`
segments, each present exactly when supplied and always in that fixed
order (`runMessageSpec` is written from the spec's words). -/
theorem C3_request_encoding_exact :
    encodeRequest .ping = "\x7b\"Ping\":1\x7d" ∧
    encodeRequest .kill = "\x7b\"Kill\":1\x7d" ∧
    ∀ p ig iy pen, encodeRequest (.run p ig iy pen) = runMessageSpec p ig iy pen :=
  ⟨rfl, rfl, fun p ig iy pen => runMessage_eq_spec p ig iy pen⟩

/-- Claim C4 counterexample: `call` invoked with an empty parameter
sequence does not fail — the empty vector is encoded as an empty
`parameter` array, the transaction is performed, and (here, with a
server echoing a well-formed reply) a response object is returned. -/
theorem C4_counterexample_empty_parameters_sent :
    call (fun _ => some Json.null) (fun _ => "") [] none none none
      = ("\x7b\"Run\" : \x7b\"parameter\": []\x7d\x7d", .ok ⟨Json.null⟩) := rfl

/-- Claim C4 as amended: `call` performs no validation of `parameters`
at all.  For every argument vector — empty included — the run request is
encoded and handed to the transaction, and whenever the reply decodes
the call succeeds; an empty vector yields the document with an empty
parameter array. -/
theorem C4_amended_no_validation :
    (∀ loads transact (p : List PyFloat) ig iy pen (j : Json),
        loads (transact (runMessage p ig iy pen)) = some j →
        call loads transact p ig iy pen = (runMessage p ig iy pen, .ok ⟨j⟩)) ∧
    runMessage [] none none none = "\x7b\"Run\" : \x7b\"parameter\": []\x7d\x7d" := by
  constructor
  · intro loads transact p ig iy pen j h
    simp [call, h]
  · rfl

/-- Witness for C4's amended theorem at a concrete input. -/
theorem C4_amended_no_validation_witness :
    call (fun _ => some Json.null) id [PyFloat.finite "1.0"] none none none
      = (runMessage [PyFloat.finite "1.0"] none none none, .ok ⟨Json.null⟩) :=
  C4_amended_no_validation.1 (fun _ => some Json.null) id
    [PyFloat.finite "1.0"] none none none Json.null rfl

/-- Claim C5 counterexample: constructing the client with BOTH a local
launch path and an explicit host/port does not fail — the
`if optimizer_path is not None` branch wins, the explicit endpoint is
ignored, and construction succeeds from the loaded descriptor. -/
theorem C5_counterexample_both_modes_accepted :
    initClient (.ok sampleDetails) (some "/opt/optimizer") (some "10.0.0.1") (some 9090) "0.6.0"
      = .ok (⟨some "/opt/optimizer", sampleDetails⟩, []) := rfl

/-- Claim C5 as amended: constructing with neither a launch path nor a
complete host/port pair raises `Exception("Illegal arguments")`, but
constructing with both a launch path and an explicit host/port does not
fail on that account — the launch path takes precedence and the
host/port arguments are ignored entirely. -/
theorem C5_amended_local_path_precedence :
    (∀ load (v : String) (ip : Option String),
        initClient load none ip none v = .error (.exception "Illegal arguments")) ∧
    (∀ load (v : String) (port : Option Nat),
        initClient load none none port v = .error (.exception "Illegal arguments")) ∧
    (∀ load (v p : String) (ip : Option String) (port : Option Nat),
        initClient load (some p) ip port v = initClient load (some p) none none v) := by
  refine ⟨?_, ?_, ?_⟩
  · intro load v ip; cases ip <;> rfl
  · intro load v port; cases port <;> rfl
  · intro load v p ip port; rfl

/-- Claim C6 (confirmed): when the target port is already accepting
connections, `start` on a locally-configured client raises the
port-unavailable exception right after the probe, and no server thread
is spawned on this path. -/
theorem C6_port_unavailable_no_spawn (c : Client) (p : String)
    (h : c.optimizer_path = some p) :
    startTrace c true
      = ([StartAction.checkServer],
          some (.exception ("Port " ++ toString c.details.tcp.port ++ " not available")))
      ∧ StartAction.spawnThread ∉ (startTrace c true).1 := by
  refine ⟨by simp [startTrace, h], by simp [startTrace, h]⟩

/-- Witness for C6 at a concrete locally-configured client. -/
theorem C6_port_unavailable_no_spawn_witness :
    startTrace ⟨some "/opt/optimizer", sampleDetails⟩ true
      = ([StartAction.checkServer], some (.exception "Port 8080 not available"))
      ∧ StartAction.spawnThread ∉ (startTrace ⟨some "/opt/optimizer", sampleDetails⟩ true).1 :=
  C6_port_unavailable_no_spawn ⟨some "/opt/optimizer", sampleDetails⟩ "/opt/optimizer" rfl

/-- Claim C7 (confirmed): connection establishment is wrapped in
`retry(tries=10, delay=1)` with the defaults `backoff=1`, `jitter=0`.
Against a server whose every connection attempt fails, exactly 10
attempts are made, the 9 inter-attempt sleeps all equal the fixed delay
1 (no backoff, no jitter), and the exhausted retry re-raises the
connection error. -/
theorem C7_retry_fixed_policy (connect : Nat → Except PyErr Socket)
    (h : ∀ i, connect i = .error .connectionError) :
    obtainSocketConnection connect
      = (some (.error PyErr.connectionError), 10, List.replicate 9 1) := by
  have := retryAux_all_error connect .connectionError h 9 1 0 []
  simpa [obtainSocketConnection] using this

/-- Witness for C7 with a concrete always-refusing connector. -/
theorem C7_retry_fixed_policy_witness :
    obtainSocketConnection (fun _ => .error PyErr.connectionError)
      = (some (.error PyErr.connectionError), 10, List.replicate 9 1) :=
  C7_retry_fixed_policy (fun _ => .error PyErr.connectionError) (fun _ => rfl)

/-- Claim C8 (confirmed): every public transaction (`ping`, `call`,
`kill` all route through `__send_receive_data`) opens a fresh socket,
writes the full request, half-closes the write side before any read,
reads, and closes the socket last; every event of a transaction touches
only that transaction's socket, so two logical calls (which obtain
distinct fresh sockets) never reuse one socket. -/
theorem C8_transaction_lifecycle (sid : Nat) (r : Request)
    (recv : Nat → Option (List Nat)) (bs mds : Nat) :
    (∃ chunks, transactionTrace sid r recv bs mds
        = [SockEvent.openSock sid, SockEvent.sendAll sid (encodeRequest r),
            SockEvent.shutdownWr sid]
          ++ List.map (SockEvent.recvEvt sid) chunks ++ [SockEvent.closeSock sid]) ∧
    (∀ e ∈ transactionTrace sid r recv bs mds, e.sockId = sid) ∧
    (∀ sid₂ r₂ recv₂ bs₂ mds₂, sid₂ ≠ sid →
        ∀ e ∈ transactionTrace sid r recv bs mds,
          ∀ e₂ ∈ transactionTrace sid₂ r₂ recv₂ bs₂ mds₂, e.sockId ≠ e₂.sockId) := by
  refine ⟨⟨recvChunks recv bs mds, rfl⟩, transactionTrace_sid sid r recv bs mds, ?_⟩
  intro sid₂ r₂ recv₂ bs₂ mds₂ hne e he e₂ he₂
  rw [transactionTrace_sid sid r recv bs mds e he,
    transactionTrace_sid sid₂ r₂ recv₂ bs₂ mds₂ e₂ he₂]
  exact fun hc => hne (hc ▸ rfl)

/-- Witness for C8: the disjointness conjunct applied to two concrete
transactions on distinct sockets. -/
theorem C8_transaction_lifecycle_witness :
    (SockEvent.openSock 0).sockId ≠ (SockEvent.openSock 1).sockId :=
  (C8_transaction_lifecycle 0 .ping (fun _ => none) 1 1).2.2 1 .ping (fun _ => none) 1 1
    (by decide) (SockEvent.openSock 0) (by decide) (SockEvent.openSock 1) (by decide)

/-- Claim C9 (confirmed): when the received text of a transaction does
not parse as a single well-formed JSON document, `json.loads` raises,
the decode step of `ping`/`call` fails with the decode error, and no
response object is returned to the caller. -/
theorem C9_decode_failure_no_response (loads : String → Option Json)
    (transact : String → String) (p : List PyFloat)
    (ig iy : Option (List PyFloat)) (pen : Option PyFloat)
    (hping : loads (transact (encodeRequest .ping)) = none)
    (hcall : loads (transact (runMessage p ig iy pen)) = none) :
    ping loads transact = (encodeRequest .ping, .error PyErr.jsonDecodeError) ∧
    call loads transact p ig iy pen
      = (runMessage p ig iy pen, .error PyErr.jsonDecodeError) := by
  constructor
  · simp [ping, hping]
  · simp [call, hcall]

/-- Witness for C9 with a parser that rejects every input (e.g. a
truncated document). -/
theorem C9_decode_failure_no_response_witness :
    ping (fun _ => none) id = (encodeRequest .ping, .error PyErr.jsonDecodeError) ∧
    call (fun _ => none) id [] none none none
      = (runMessage [] none none none, .error PyErr.jsonDecodeError) :=
  C9_decode_failure_no_response (fun _ => none) id [] none none none rfl rfl

/-- Claim C10 (confirmed): the run-request encoder validates nothing
about the numeric values it renders — every element of `parameters`,
`initial_guess` and `initial_y`, wherever it sits in its vector, is
embedded via CPython's textual rendering `pyStr` into the payload that
`call` hands to the transaction, so an input whose non-finite float sits
in any of the three vectors produces a payload containing that value's
rendering verbatim; the final conjuncts fix those renderings to the
tokens `nan`, `inf` and `-inf`, which is what the loop sends. -/
theorem C10_nonfinite_tokens_sent (loads : String → Option Json)
    (transact : String → String) :
    (∀ (p₁ p₂ : List PyFloat) (x : PyFloat) (ig iy : Option (List PyFloat))
        (pen : Option PyFloat),
        ∃ l r, (call loads transact (p₁ ++ x :: p₂) ig iy pen).1
          = l ++ pyStr x ++ r) ∧
    (∀ (p g₁ g₂ : List PyFloat) (x : PyFloat) (iy : Option (List PyFloat))
        (pen : Option PyFloat),
        ∃ l r, (call loads transact p (some (g₁ ++ x :: g₂)) iy pen).1
          = l ++ pyStr x ++ r) ∧
    (∀ (p y₁ y₂ : List PyFloat) (x : PyFloat) (ig : Option (List PyFloat))
        (pen : Option PyFloat),
        ∃ l r, (call loads transact p ig (some (y₁ ++ x :: y₂)) pen).1
          = l ++ pyStr x ++ r) ∧
    pyStr PyFloat.nan = "nan" ∧ pyStr PyFloat.inf = "inf" ∧
    pyStr PyFloat.negInf = "-inf" :=
  ⟨fun p₁ p₂ x ig iy pen => runMessage_token x p₁ p₂ ig iy pen,
   fun p g₁ g₂ x iy pen => runMessage_token_guess x p g₁ g₂ iy pen,
   fun p y₁ y₂ x ig pen => runMessage_token_multipliers x p ig y₁ y₂ pen,
   rfl, rfl, rfl⟩

end OptimizerTcp
